import Mathlib

/-!
Verification development for the grpc-interceptor library.

Python source files are shallowly embedded: pure functions become Lean
functions, Python strings become `List Char` where structural reasoning is
needed, fallible code returns `Except`, and objects whose runtime type
matters (message vs. iterator, coroutine vs. async generator) become
inductive types tagging the possibilities.
-/

namespace GrpcInterceptor

/-- Python exceptions that the embedded code can raise. -/
inductive PyError where
  | valueError
  | stopIteration
  | typeError
  deriving DecidableEq, Repr

/-- The grpc.StatusCode enumeration (source of truth: the gRPC status code
list; all 17 members as used by `grpc_interceptor/exceptions.py`). -/
inductive StatusCode where
  | OK
  | CANCELLED
  | UNKNOWN
  | INVALID_ARGUMENT
  | DEADLINE_EXCEEDED
  | NOT_FOUND
  | ALREADY_EXISTS
  | PERMISSION_DENIED
  | RESOURCE_EXHAUSTED
  | FAILED_PRECONDITION
  | ABORTED
  | OUT_OF_RANGE
  | UNIMPLEMENTED
  | INTERNAL
  | UNAVAILABLE
  | DATA_LOSS
  | UNAUTHENTICATED
  deriving DecidableEq, Repr, Fintype

/-- The sixteen concrete subclasses of `GrpcException` declared in
`grpc_interceptor/exceptions.py` (the base class itself is not concrete in
the taxonomy sense; `Unknown` is the concrete subclass that inherits the
base class defaults). -/
inductive GrpcExceptionKind where
  | Aborted
  | AlreadyExists
  | Cancelled
  | DataLoss
  | DeadlineExceeded
  | FailedPrecondition
  | InvalidArgument
  | Internal
  | OutOfRange
  | NotFound
  | PermissionDenied
  | ResourceExhausted
  | Unauthenticated
  | Unavailable
  | Unimplemented
  | Unknown
  deriving DecidableEq, Repr, Fintype

namespace GrpcExceptionKind

/-- Class-level default `status_code` of each concrete subclass, transcribed
from `grpc_interceptor/exceptions.py` (`Unknown` inherits the base class
default `StatusCode.UNKNOWN`). -/
def defaultStatusCode : GrpcExceptionKind → StatusCode
  | .Aborted => .ABORTED
  | .AlreadyExists => .ALREADY_EXISTS
  | .Cancelled => .CANCELLED
  | .DataLoss => .DATA_LOSS
  | .DeadlineExceeded => .DEADLINE_EXCEEDED
  | .FailedPrecondition => .FAILED_PRECONDITION
  | .InvalidArgument => .INVALID_ARGUMENT
  | .Internal => .INTERNAL
  | .OutOfRange => .OUT_OF_RANGE
  | .NotFound => .NOT_FOUND
  | .PermissionDenied => .PERMISSION_DENIED
  | .ResourceExhausted => .RESOURCE_EXHAUSTED
  | .Unauthenticated => .UNAUTHENTICATED
  | .Unavailable => .UNAVAILABLE
  | .Unimplemented => .UNIMPLEMENTED
  | .Unknown => .UNKNOWN

/-- Class-level default `details` string of each concrete subclass,
transcribed from `grpc_interceptor/exceptions.py` (`Unknown` inherits the
base class default). -/
def defaultDetails : GrpcExceptionKind → String
  | .Aborted => "The operation was aborted"
  | .AlreadyExists => "The entity attempted to be created already exists"
  | .Cancelled => "The operation was cancelled"
  | .DataLoss => "There was unrecoverable data loss or corruption"
  | .DeadlineExceeded => "Deadline expired before operation could complete"
  | .FailedPrecondition =>
      "The operation was rejected because the system is not" ++
      " in a state required for execution"
  | .InvalidArgument => "The client specified an invalid argument"
  | .Internal => "Internal error"
  | .OutOfRange => "The operation was attempted past the valid range"
  | .NotFound => "The requested entity was not found"
  | .PermissionDenied =>
      "The caller does not have permission to execute the specified operation"
  | .ResourceExhausted => "A resource has been exhausted"
  | .Unauthenticated =>
      "The request does not have valid authentication credentials for the operation"
  | .Unavailable => "The service is currently unavailable"
  | .Unimplemented =>
      "The operation is not implemented or not supported/enabled in this service"
  | .Unknown => "Unknown exception occurred"

end GrpcExceptionKind

/-- The data carried by a constructed `GrpcException` instance: its
`status_code` and `details` attributes. -/
structure GrpcExceptionData where
  status_code : StatusCode
  details : String
  deriving DecidableEq, Repr

/-- Embedding of `GrpcException.__init__` from
`grpc_interceptor/exceptions.py`.  The class-level defaults
(`classCode`, `classDetails`) stand for the attributes of whichever
(sub)class is being constructed; the two optional arguments are the
constructor arguments.  Raising `ValueError` is modelled as
`Except.error .valueError`. -/
def GrpcException.init (classCode : StatusCode) (classDetails : String)
    (details : Option String) (status_code : Option StatusCode) :
    Except PyError GrpcExceptionData :=
  match status_code with
  | some c =>
      if c = StatusCode.OK then
        .error .valueError
      else
        .ok ⟨c, details.getD classDetails⟩
  | none => .ok ⟨classCode, details.getD classDetails⟩

/-- Embedding of `ExceptionToStatusInterceptor.__init__` from
`grpc_interceptor/exception_to_status.py`: validates the
`status_on_unknown_exception` argument and stores it. -/
def ExceptionToStatusInterceptor.init (status_on_unknown_exception : Option StatusCode) :
    Except PyError (Option StatusCode) :=
  if status_on_unknown_exception = some StatusCode.OK then
    .error .valueError
  else
    .ok status_on_unknown_exception

/-- Embedding of `AsyncExceptionToStatusInterceptor.__init__` from
`grpc_interceptor/exception_to_status.py`; its body is identical to the
synchronous constructor. -/
def AsyncExceptionToStatusInterceptor.init (status_on_unknown_exception : Option StatusCode) :
    Except PyError (Option StatusCode) :=
  if status_on_unknown_exception = some StatusCode.OK then
    .error .valueError
  else
    .ok status_on_unknown_exception

/-!
Method name parsing (`grpc_interceptor/server.py`).  Python strings are
modelled as `List Char`; `str.split(sep)` and `str.rsplit(sep, maxsplit=1)`
for a one-character separator are modelled by `pySplit` and `pyRsplit1`.
-/

/-- Accumulator-based splitter: models CPython `str.split(sep)` for a
single-character separator, which splits at every occurrence of `sep` and
keeps empty segments. -/
def pySplitAux (sep : Char) : List Char → List Char → List (List Char)
  | [], acc => [acc.reverse]
  | c :: cs, acc =>
      if c = sep then acc.reverse :: pySplitAux sep cs []
      else pySplitAux sep cs (c :: acc)

/-- Model of Python `s.split(sep)` for a one-character separator. -/
def pySplit (sep : Char) (s : List Char) : List (List Char) :=
  pySplitAux sep s []

/-- Split a list at the first occurrence of `sep`, returning the parts
before and after it (separator removed), or `none` if `sep` is absent. -/
def breakAtFirst (sep : Char) : List Char → Option (List Char × List Char)
  | [] => none
  | c :: cs =>
      if c = sep then some ([], cs)
      else (breakAtFirst sep cs).map (fun p => (c :: p.1, p.2))

/-- Model of Python `s.rsplit(sep, maxsplit=1)` for a one-character
separator: split at the last occurrence of `sep` (if any), yielding one or
two segments. -/
def pyRsplit1 (sep : Char) (s : List Char) : List (List Char) :=
  match breakAtFirst sep s.reverse with
  | none => [s]
  | some (tl, hd) => [hd.reverse, tl.reverse]

/-- The `MethodName` value object of `grpc_interceptor/server.py`. -/
structure MethodName where
  package : List Char
  service : List Char
  method : List Char
  deriving DecidableEq, Repr

/-- Embedding of the `MethodName.fully_qualified_service` property:
`f"{package}.{service}" if self.package else service` (an empty Python
string is falsy). -/
def MethodName.fully_qualified_service (m : MethodName) : List Char :=
  if m.package = [] then m.service else m.package ++ '.' :: m.service

/-- Embedding of `parse_method_name` from `grpc_interceptor/server.py`:
`_, package_and_service, method = method_name.split("/")` (which raises
`ValueError` unless the split yields exactly three parts, modelled by
`none`), then `*maybe_package, service = package_and_service.rsplit(".",
maxsplit=1)`; the package is the first element of `maybe_package` if it is
non-empty, else the empty string.  `pyRsplit1` always returns one or two
segments, so the inner catch-all branch is unreachable. -/
def parse_method_name (method_name : List Char) : Option MethodName :=
  match pySplit '/' method_name with
  | [_, package_and_service, method] =>
      match pyRsplit1 '.' package_and_service with
      | [service] => some ⟨[], service, method⟩
      | [package, service] => some ⟨package, service, method⟩
      | _ => none
  | _ => none

lemma pySplitAux_no_sep (sep : Char) (s acc : List Char) (h : sep ∉ s) :
    pySplitAux sep s acc = [acc.reverse ++ s] := by
  induction s generalizing acc with
  | nil => simp [pySplitAux]
  | cons c cs ih =>
      have hc : ¬ c = sep := fun hcs => h (hcs ▸ List.mem_cons_self c cs)
      have hcs : sep ∉ cs := fun hm => h (List.mem_cons_of_mem c hm)
      simp [pySplitAux, hc, ih _ hcs]

lemma pySplitAux_append_sep (sep : Char) (a rest acc : List Char) (h : sep ∉ a) :
    pySplitAux sep (a ++ sep :: rest) acc
      = (acc.reverse ++ a) :: pySplitAux sep rest [] := by
  induction a generalizing acc with
  | nil => simp [pySplitAux]
  | cons c cs ih =>
      have hc : ¬ c = sep := fun hcs => h (hcs ▸ List.mem_cons_self c cs)
      have hcs : sep ∉ cs := fun hm => h (List.mem_cons_of_mem c hm)
      simp [pySplitAux, hc, ih _ hcs]

lemma pySplit_two_slashes (mid meth : List Char)
    (h1 : '/' ∉ mid) (h2 : '/' ∉ meth) :
    pySplit '/' ('/' :: mid ++ '/' :: meth) = [[], mid, meth] := by
  show pySplitAux '/' ([] ++ '/' :: (mid ++ '/' :: meth)) [] = [[], mid, meth]
  rw [pySplitAux_append_sep _ _ _ _ (by simp)]
  rw [pySplitAux_append_sep _ _ _ _ h1]
  rw [pySplitAux_no_sep _ _ _ h2]
  simp

lemma breakAtFirst_no_sep (sep : Char) (s : List Char) (h : sep ∉ s) :
    breakAtFirst sep s = none := by
  induction s with
  | nil => rfl
  | cons c cs ih =>
      have hc : ¬ c = sep := fun hcs => h (hcs ▸ List.mem_cons_self c cs)
      have hcs : sep ∉ cs := fun hm => h (List.mem_cons_of_mem c hm)
      simp [breakAtFirst, hc, ih hcs]

lemma breakAtFirst_append (sep : Char) (a b : List Char) (h : sep ∉ a) :
    breakAtFirst sep (a ++ sep :: b) = some (a, b) := by
  induction a with
  | nil => simp [breakAtFirst]
  | cons c cs ih =>
      have hc : ¬ c = sep := fun hcs => h (hcs ▸ List.mem_cons_self c cs)
      have hcs : sep ∉ cs := fun hm => h (List.mem_cons_of_mem c hm)
      simp [breakAtFirst, hc, ih hcs]

lemma pyRsplit1_no_sep (sep : Char) (s : List Char) (h : sep ∉ s) :
    pyRsplit1 sep s = [s] := by
  have : sep ∉ s.reverse := fun hm => h (List.mem_reverse.mp hm)
  simp [pyRsplit1, breakAtFirst_no_sep _ _ this]

lemma pyRsplit1_last_sep (sep : Char) (pkg svc : List Char) (h : sep ∉ svc) :
    pyRsplit1 sep (pkg ++ sep :: svc) = [pkg, svc] := by
  have hrev : (pkg ++ sep :: svc).reverse = svc.reverse ++ sep :: pkg.reverse := by
    simp
  have hs : sep ∉ svc.reverse := fun hm => h (List.mem_reverse.mp hm)
  simp [pyRsplit1, hrev, breakAtFirst_append _ _ _ hs]

/-!
Exception handling (`grpc_interceptor/exception_to_status.py`).  A servicer
context records the status code and details set on it; `context.abort`
sets both and raises, so a call to `handle_exception` either ends in an
abort or re-raises the original exception — it never returns normally.
-/

/-- The status-related state of a `grpc.ServicerContext`: the code and
details that have been set on it, if any. -/
structure Context where
  code : Option StatusCode
  details : Option String
  deriving DecidableEq, Repr

/-- A Python exception as seen by `handle_exception`: either a
`GrpcException` instance (carrying its `status_code` and `details`
attributes) or any other exception, of which only `repr(e)` is consumed. -/
inductive PyExc where
  | grpcExc (e : GrpcExceptionData)
  | otherExc (reprStr : String)
  deriving DecidableEq, Repr

/-- How a call to `handle_exception` terminates: `context.abort` raised
(after setting code and details), the original exception was re-raised, or
the call returned normally (no code path produces this; the theorem for
the claim proves it unreachable). -/
inductive HandleResult where
  | aborted (code : StatusCode) (details : String)
  | raised (ex : PyExc)
  | returnedNormally
  deriving DecidableEq, Repr

/-- Embedding of `ExceptionToStatusInterceptor.handle_exception`.  The
interceptor state is its `_status_on_unknown_exception` field.  Returns
the final context together with the way the call terminated.  Python's
`not context.code()` is true exactly when no code has been set (a set
`StatusCode` enum member is always truthy). -/
def ExceptionToStatusInterceptor.handle_exception
    (status_on_unknown_exception : Option StatusCode)
    (ex : PyExc) (context : Context) : Context × HandleResult :=
  match ex with
  | .grpcExc e =>
      (⟨some e.status_code, some e.details⟩, .aborted e.status_code e.details)
  | .otherExc r =>
      match context.code with
      | none =>
          match status_on_unknown_exception with
          | some c => (⟨some c, some r⟩, .aborted c r)
          | none => (context, .raised ex)
      | some _ => (context, .raised ex)

/-- Embedding of `AsyncExceptionToStatusInterceptor.handle_exception`; its
body is the same as the synchronous one, with `context.abort` awaited. -/
def AsyncExceptionToStatusInterceptor.handle_exception
    (status_on_unknown_exception : Option StatusCode)
    (ex : PyExc) (context : Context) : Context × HandleResult :=
  match ex with
  | .grpcExc e =>
      (⟨some e.status_code, some e.details⟩, .aborted e.status_code e.details)
  | .otherExc r =>
      match context.code with
      | none =>
          match status_on_unknown_exception with
          | some c => (⟨some c, some r⟩, .aborted c r)
          | none => (context, .raised ex)
      | some _ => (context, .raised ex)

/-- A Python response iterator, observed extensionally: the items it
yields, followed (optionally) by an exception it raises instead of
terminating normally. -/
structure PyStream (σ : Type) where
  items : List σ
  terminalError : Option PyExc

/-- The observable result of one pull (`next()`) on the generator returned
by `_generate_responses`. -/
inductive GenOutcome (σ : Type) where
  | yielded (item : σ) (rest : PyStream σ)
  | stopped
  | failed (ctx : Context) (r : HandleResult)

/-- One pull of the generator returned by
`ExceptionToStatusInterceptor._generate_responses`: each `next()` on the
generator forwards one `next()` on the underlying response iterator
(`yield from` inside the `_handle_exception` context manager).  If the
underlying iterator yields, the item is re-yielded; if it stops, the
generator stops; if it raises, the context manager invokes
`handle_exception` on the exception at that point. -/
def generateResponsesNext (status_on_unknown_exception : Option StatusCode)
    (context : Context) {σ : Type} : PyStream σ → GenOutcome σ
  | ⟨a :: rest, err⟩ => .yielded a ⟨rest, err⟩
  | ⟨[], none⟩ => .stopped
  | ⟨[], some ex⟩ =>
      let p := ExceptionToStatusInterceptor.handle_exception
        status_on_unknown_exception ex context
      .failed p.1 p.2

/-- Full consumption of the generator produced by `_generate_responses`:
the items the consumer observes, plus the failure handling outcome if the
underlying iterator raised after its items. -/
def consumeItems (status_on_unknown_exception : Option StatusCode)
    (context : Context) {σ : Type} :
    List σ → Option PyExc → List σ × Option (Context × HandleResult)
  | a :: rest, err =>
      let r := consumeItems status_on_unknown_exception context rest err
      (a :: r.1, r.2)
  | [], none => ([], none)
  | [], some ex =>
      ([], some (ExceptionToStatusInterceptor.handle_exception
        status_on_unknown_exception ex context))

/-- The value `ExceptionToStatusInterceptor.intercept` computes from
invoking `method(request_or_iterator, context)`: the call either returns a
non-iterable response, returns an iterable of responses, or raises. -/
inductive CallResult (σ : Type) where
  | unaryResp (v : σ)
  | streamResp (s : PyStream σ)
  | raisedDuringCall (ex : PyExc)

/-- What `ExceptionToStatusInterceptor.intercept` returns (or how it
fails): a single response, an unconsumed generator over the response
iterable (laziness: nothing of the iterable has been pulled yet), or the
outcome of `handle_exception` when the call itself raised. -/
inductive InterceptOutcome (σ : Type) where
  | single (v : σ)
  | generatorOf (s : PyStream σ)
  | failedBeforeFirst (ctx : Context) (r : HandleResult)

/-- Embedding of `ExceptionToStatusInterceptor.intercept`: run the method
inside `_handle_exception`; if the result is an `Iterable`, return the
generator `_generate_responses(...)` without consuming it, else return the
single response. -/
def ExceptionToStatusInterceptor.intercept
    (status_on_unknown_exception : Option StatusCode) (context : Context)
    {σ : Type} (methodResult : CallResult σ) : InterceptOutcome σ :=
  match methodResult with
  | .raisedDuringCall ex =>
      let p := ExceptionToStatusInterceptor.handle_exception
        status_on_unknown_exception ex context
      .failedBeforeFirst p.1 p.2
  | .unaryResp v => .single v
  | .streamResp s => .generatorOf s

/-!
Client interceptor adapters (`grpc_interceptor/client.py`).  Because the
adapters pass values whose runtime type matters (protobuf message vs.
iterator, and `iter((request_iterator,))` wraps an iterator inside another
iterator), Python values are modelled by the inductive `PyVal`: a message
or an iterator over further values.  `next()` on an iterator yields its
head or raises `StopIteration`; `next()` on a non-iterator raises
`TypeError`.  Call details and responses stay abstract (`δ`, `ρ`). -/

/-- A Python runtime value handled by the client adapters: a protobuf
message, or an iterator over further values. -/
inductive PyVal (α : Type) where
  | msg (a : α)
  | iterObj (items : List (PyVal α))

/-- Application of the optional postprocess callback returned by the user
`intercept`: `postprocess(response) if postprocess else response`. -/
def applyPostprocess {ρ : Type} (postprocess : Option (ρ → ρ)) (response : ρ) : ρ :=
  match postprocess with
  | some f => f response
  | none => response

/-- Embedding of `ClientInterceptor.intercept_unary_unary`: wraps the
single request in `iter((request,))`, calls the user `intercept` with
streaming flags `(False, False)`, extracts the message to send with one
`next(new_request_iterator)` (raising `StopIteration` if it is exhausted,
`TypeError` if it is not an iterator), invokes the continuation with it,
and applies the optional postprocess callback to the raw response. -/
def ClientInterceptor.intercept_unary_unary {δ α ρ : Type}
    (intercept : δ → PyVal α → Bool → Bool → δ × PyVal α × Option (ρ → ρ))
    (continuation : δ → PyVal α → ρ)
    (call_details : δ) (request : PyVal α) : Except PyError ρ :=
  let (new_details, new_request_iterator, postprocess) :=
    intercept call_details (.iterObj [request]) false false
  match new_request_iterator with
  | .msg _ => .error .typeError
  | .iterObj [] => .error .stopIteration
  | .iterObj (x :: _) =>
      .ok (applyPostprocess postprocess (continuation new_details x))

/-- Embedding of `ClientInterceptor.intercept_unary_stream`: identical to
the unary-unary adapter except the streaming flags are `(False, True)` and
the continuation result is a response iterator handle. -/
def ClientInterceptor.intercept_unary_stream {δ α ρ : Type}
    (intercept : δ → PyVal α → Bool → Bool → δ × PyVal α × Option (ρ → ρ))
    (continuation : δ → PyVal α → ρ)
    (call_details : δ) (request : PyVal α) : Except PyError ρ :=
  let (new_details, new_request_iterator, postprocess) :=
    intercept call_details (.iterObj [request]) false true
  match new_request_iterator with
  | .msg _ => .error .typeError
  | .iterObj [] => .error .stopIteration
  | .iterObj (x :: _) =>
      .ok (applyPostprocess postprocess (continuation new_details x))

/-- Embedding of `ClientInterceptor.intercept_stream_unary`: the adapter
passes `iter((request_iterator,))` — an iterator whose single element is
the request iterator itself — to the user `intercept` with streaming flags
`(True, False)`, hands whatever iterator `intercept` returned directly to
the continuation, and applies the optional postprocess callback. -/
def ClientInterceptor.intercept_stream_unary {δ α ρ : Type}
    (intercept : δ → PyVal α → Bool → Bool → δ × PyVal α × Option (ρ → ρ))
    (continuation : δ → PyVal α → ρ)
    (call_details : δ) (request_iterator : PyVal α) : ρ :=
  let (new_details, new_request_iterator, postprocess) :=
    intercept call_details (.iterObj [request_iterator]) true false
  applyPostprocess postprocess (continuation new_details new_request_iterator)

/-- Embedding of `ClientInterceptor.intercept_stream_stream`: same as the
stream-unary adapter with streaming flags `(True, True)`. -/
def ClientInterceptor.intercept_stream_stream {δ α ρ : Type}
    (intercept : δ → PyVal α → Bool → Bool → δ × PyVal α × Option (ρ → ρ))
    (continuation : δ → PyVal α → ρ)
    (call_details : δ) (request_iterator : PyVal α) : ρ :=
  let (new_details, new_request_iterator, postprocess) :=
    intercept call_details (.iterObj [request_iterator]) true true
  applyPostprocess postprocess (continuation new_details new_request_iterator)

/-!
Server interceptor adapters (`grpc_interceptor/server.py`).  An
`RpcMethodHandler` is modelled by the shape it implements (`kind`, which of
the four `unary_unary`/`unary_stream`/`stream_unary`/`stream_stream`
fields is set), its behavior, and the two (de)serializers;
`_get_factory_and_method` corresponds to reading `kind`/`behavior` and the
handler factory rebuilds a handler of the same kind. -/

/-- Which of the four RPC shape fields of a `grpc.RpcMethodHandler` is
populated. -/
inductive HandlerKind where
  | unary_unary
  | unary_stream
  | stream_unary
  | stream_stream
  deriving DecidableEq, Repr

/-- The `HandlerCallDetails` passed to `intercept_service`: only its
`method` attribute is consumed by the adapters. -/
structure HandlerCallDetails where
  method : String
  deriving DecidableEq, Repr

/-- A synchronous `grpc.RpcMethodHandler`, shape-tagged. -/
structure RpcMethodHandler (Ctx Req Resp Ser : Type) where
  kind : HandlerKind
  behavior : Req → Ctx → Resp
  request_deserializer : Ser
  response_serializer : Ser

/-- Embedding of `ServerInterceptor.intercept_service`: ask the
continuation for the next handler; if it is `None` (the method is not
implemented) return immediately, otherwise rebuild a handler of the same
shape whose method is `invoke_intercept_method`, a closure deferring to
`self.intercept` with the next handler's method and the call's method
name.  `intercept_service` itself never calls `intercept`. -/
def ServerInterceptor.intercept_service {Ctx Req Resp Ser : Type}
    (intercept : (Req → Ctx → Resp) → Req → Ctx → String → Resp)
    (continuation : HandlerCallDetails → Option (RpcMethodHandler Ctx Req Resp Ser))
    (handler_call_details : HandlerCallDetails) :
    Option (RpcMethodHandler Ctx Req Resp Ser) :=
  match continuation handler_call_details with
  | none => none
  | some next_handler =>
      some { kind := next_handler.kind,
             behavior := fun request_or_iterator context =>
               intercept next_handler.behavior request_or_iterator context
                 handler_call_details.method,
             request_deserializer := next_handler.request_deserializer,
             response_serializer := next_handler.response_serializer }

/-- An asynchronous iterable object: anything supporting `__aiter__`,
carrying the name of its Python type (which the adapters never consult)
and the items async-iterating it produces. -/
structure AsyncIterObj (σ : Type) where
  typeName : String
  items : List σ

/-- The value a coroutine produces when awaited, in the cases the async
adapters distinguish: `None` (falsy), a single response message, or an
asynchronously iterable object. -/
inductive AwaitedVal (σ : Type) where
  | pyNone
  | message (v : σ)
  | aiterable (obj : AsyncIterObj σ)

/-- The value returned by invoking an async `intercept` (without awaiting):
a coroutine (`asyncio.iscoroutine` is true exactly for this constructor),
or a non-coroutine asynchronously iterable object such as an async
generator (`hasattr(x, "__aiter__")` is true exactly for this one). -/
inductive AsyncVal (σ : Type) where
  | coro (res : AwaitedVal σ)
  | agen (obj : AsyncIterObj σ)

/-- Embedding of the streaming `invoke_intercept_method` closure inside
`AsyncServerInterceptor.intercept_service`: if `iscoroutine` (the `.coro`
constructor) await it — if the awaited value is falsy `None` the closure
returns without yielding, otherwise async-iterate it (a single message is
not async-iterable: `TypeError`); a non-coroutine value is async-iterated
directly.  The result is the list of items the adapted async generator
yields. -/
def invoke_intercept_method_streaming {σ : Type} :
    AsyncVal σ → Except PyError (List σ)
  | .coro .pyNone => .ok []
  | .coro (.aiterable obj) => .ok obj.items
  | .coro (.message _) => .error .typeError
  | .agen obj => .ok obj.items

/-- Embedding of the non-streaming `invoke_intercept_method` closure:
`return await self.intercept(...)`; awaiting a non-coroutine (e.g. an
async generator) raises `TypeError`. -/
def invoke_intercept_method_unary {σ : Type} :
    AsyncVal σ → Except PyError (AwaitedVal σ)
  | .coro aw => .ok aw
  | .agen _ => .error .typeError

/-- An asynchronous `grpc.aio` RPC method handler before adaptation. -/
structure AsyncRpcMethodHandler (Ctx Req σ Ser : Type) where
  response_streaming : Bool
  behavior : Req → Ctx → AsyncVal σ
  request_deserializer : Ser
  response_serializer : Ser

/-- What the adapted async entry point produces when invoked: the items of
an async generator (streaming branch) or a single awaited value. -/
inductive AdaptedOutcome (σ : Type) where
  | streamed (r : Except PyError (List σ))
  | single (r : Except PyError (AwaitedVal σ))

/-- The handler built by `AsyncServerInterceptor.intercept_service`. -/
structure AdaptedAsyncHandler (Ctx Req σ Ser : Type) where
  behavior : Req → Ctx → AdaptedOutcome σ
  request_deserializer : Ser
  response_serializer : Ser

/-- Embedding of `AsyncServerInterceptor.intercept_service`: await the
continuation; `if not next_handler: return` (handler objects are truthy,
so this fires exactly on `None`); otherwise wrap the handler method in the
streaming or non-streaming `invoke_intercept_method` closure according to
`next_handler.response_streaming`, preserving the (de)serializers. -/
def AsyncServerInterceptor.intercept_service {Ctx Req σ Ser : Type}
    (intercept : (Req → Ctx → AsyncVal σ) → Req → Ctx → String → AsyncVal σ)
    (continuation : HandlerCallDetails → Option (AsyncRpcMethodHandler Ctx Req σ Ser))
    (handler_call_details : HandlerCallDetails) :
    Option (AdaptedAsyncHandler Ctx Req σ Ser) :=
  match continuation handler_call_details with
  | none => none
  | some next_handler =>
      if next_handler.response_streaming then
        some { behavior := fun request context =>
                 .streamed (invoke_intercept_method_streaming
                   (intercept next_handler.behavior request context
                     handler_call_details.method)),
               request_deserializer := next_handler.request_deserializer,
               response_serializer := next_handler.response_serializer }
      else
        some { behavior := fun request context =>
                 .single (invoke_intercept_method_unary
                   (intercept next_handler.behavior request context
                     handler_call_details.method)),
               request_deserializer := next_handler.request_deserializer,
               response_serializer := next_handler.response_serializer }

/-!
Claim theorems.
-/

/-- C1: for every call handled by `handle_exception` (sync and async): a
`GrpcException` leads to `context.abort` with exactly the exception's
`status_code` and `details`; any other exception with a configured
`status_on_unknown_exception` and no status code already set leads to
`context.abort` with the configured code and `repr(exception)` as details;
with no fallback configured the context is left untouched; in every case
the handler terminates by propagating a failure (abort or re-raise), never
by returning normally; and the async handler behaves identically. -/
theorem handle_exception_sets_status_and_propagates :
    ∀ (sou : Option StatusCode) (e : GrpcExceptionData) (r : String)
      (ctx : Context) (c c0 : StatusCode) (dtl : Option String) (ex : PyExc),
    (ExceptionToStatusInterceptor.handle_exception sou (.grpcExc e) ctx
        = (⟨some e.status_code, some e.details⟩,
           .aborted e.status_code e.details)) ∧
    (ExceptionToStatusInterceptor.handle_exception (some c) (.otherExc r) ⟨none, dtl⟩
        = (⟨some c, some r⟩, .aborted c r)) ∧
    (ExceptionToStatusInterceptor.handle_exception none (.otherExc r) ctx
        = (ctx, .raised (.otherExc r))) ∧
    (ExceptionToStatusInterceptor.handle_exception sou (.otherExc r) ⟨some c0, dtl⟩
        = (⟨some c0, dtl⟩, .raised (.otherExc r))) ∧
    ((ExceptionToStatusInterceptor.handle_exception sou ex ctx).2
        ≠ .returnedNormally) ∧
    (AsyncExceptionToStatusInterceptor.handle_exception sou ex ctx
        = ExceptionToStatusInterceptor.handle_exception sou ex ctx) := by
  intro sou e r ctx c c0 dtl ex
  obtain ⟨code, details⟩ := ctx
  refine ⟨rfl, rfl, ?_, rfl, ?_, ?_⟩
  · cases code <;> rfl
  · cases ex with
    | grpcExc e2 => simp [ExceptionToStatusInterceptor.handle_exception]
    | otherExc r2 =>
        cases code <;> cases sou <;>
          simp [ExceptionToStatusInterceptor.handle_exception]
  · cases ex with
    | grpcExc e2 => rfl
    | otherExc r2 => cases code <;> cases sou <;> rfl

/-- Witness for C1: the concrete `NotFound`-style exception aborts the
context with its own fields and never returns normally. -/
theorem handle_exception_sets_status_and_propagates_witness :
    (ExceptionToStatusInterceptor.handle_exception none
        (.grpcExc ⟨.NOT_FOUND, "nf"⟩) ⟨none, none⟩
      = (⟨some .NOT_FOUND, some "nf"⟩, .aborted .NOT_FOUND "nf")) ∧
    ((ExceptionToStatusInterceptor.handle_exception none
        (.grpcExc ⟨.NOT_FOUND, "nf"⟩) ⟨none, none⟩).2 ≠ .returnedNormally) := by
  have h := handle_exception_sets_status_and_propagates none ⟨.NOT_FOUND, "nf"⟩
    "ValueError()" ⟨none, none⟩ .INTERNAL .ABORTED none
    (.grpcExc ⟨.NOT_FOUND, "nf"⟩)
  exact ⟨h.1, h.2.2.2.2.1⟩

/-- C2: for streaming-response calls through
`ExceptionToStatusInterceptor`: `intercept` returns the generator over the
response iterable without consuming it (laziness); each pull on the
generator yields exactly the next already-available item; and full
consumption of a stream whose underlying iterator raises after its items
observes exactly those items followed by the `handle_exception` outcome —
never an extra item, never zero items, never a silently truncated
successful stream (a stream that terminates normally yields exactly its
items with no failure handling). -/
theorem streaming_responses_lazy_and_exact (σ : Type)
    (sou : Option StatusCode) (ctx : Context) (s : PyStream σ)
    (items : List σ) (ex : PyExc) (a : σ) (rest : List σ)
    (err : Option PyExc) :
    (ExceptionToStatusInterceptor.intercept sou ctx (.streamResp s)
        = .generatorOf s) ∧
    (generateResponsesNext sou ctx ⟨a :: rest, err⟩ = .yielded a ⟨rest, err⟩) ∧
    (consumeItems sou ctx items (some ex)
        = (items, some (ExceptionToStatusInterceptor.handle_exception sou ex ctx))) ∧
    (consumeItems sou ctx items none = (items, none)) := by
  refine ⟨rfl, rfl, ?_, ?_⟩
  · induction items with
    | nil => rfl
    | cons b bs ih => simp [consumeItems, ih]
  · induction items with
    | nil => rfl
    | cons b bs ih => simp [consumeItems, ih]

/-- Witness for C2: a stream of two items whose underlying iterator then
raises is consumed as exactly those two items followed by the failure
handling. -/
theorem streaming_responses_lazy_and_exact_witness :
    (ExceptionToStatusInterceptor.intercept none ⟨none, none⟩
        (.streamResp ⟨[1, 2], some (.otherExc "ValueError()")⟩)
      = .generatorOf ⟨[1, 2], some (.otherExc "ValueError()")⟩) ∧
    (generateResponsesNext none ⟨none, none⟩
        ⟨1 :: [2], some (.otherExc "ValueError()")⟩
      = .yielded 1 ⟨[2], some (.otherExc "ValueError()")⟩) ∧
    (consumeItems none ⟨none, none⟩ [1, 2] (some (.otherExc "ValueError()"))
      = ([1, 2], some (ExceptionToStatusInterceptor.handle_exception none
          (.otherExc "ValueError()") ⟨none, none⟩))) ∧
    (consumeItems none ⟨none, none⟩ ([1, 2] : List Nat) none = ([1, 2], none)) := by
  have h := streaming_responses_lazy_and_exact Nat none ⟨none, none⟩
    ⟨[1, 2], some (.otherExc "ValueError()")⟩ [1, 2]
    (.otherExc "ValueError()") 1 [2] (some (.otherExc "ValueError()"))
  exact ⟨h.1, h.2.1, h.2.2.1, h.2.2.2⟩

/-- C3: for every path of the form `/pkg.sub.Service/Method` (segments
free of `/`, package possibly multi-dotted, service free of dots),
`parse_method_name` returns method, service, and package as the parts
after the second slash, after the last dot of the middle segment, and
before that dot respectively (empty package when the middle segment has no
dot, as in `/Service/Method`); and `fully_qualified_service` is
`package + "." + service` when the package is non-empty, else the service
alone. -/
theorem parse_method_name_components (pkg svc meth : List Char)
    (hp : '/' ∉ pkg) (hs : '/' ∉ svc) (hm : '/' ∉ meth) (hd : '.' ∉ svc) :
    (parse_method_name ('/' :: (pkg ++ '.' :: svc) ++ '/' :: meth)
        = some ⟨pkg, svc, meth⟩) ∧
    (parse_method_name ('/' :: svc ++ '/' :: meth) = some ⟨[], svc, meth⟩) ∧
    (pkg ≠ [] →
      (MethodName.mk pkg svc meth).fully_qualified_service = pkg ++ '.' :: svc) ∧
    ((MethodName.mk [] svc meth).fully_qualified_service = svc) := by
  have hmid : '/' ∉ (pkg ++ '.' :: svc) := by
    intro h
    rcases List.mem_append.mp h with h1 | h1
    · exact hp h1
    · rcases List.mem_cons.mp h1 with h2 | h2
      · exact absurd h2 (by decide)
      · exact hs h2
  refine ⟨?_, ?_, ?_, ?_⟩
  · simp only [parse_method_name, pySplit_two_slashes _ _ hmid hm,
      pyRsplit1_last_sep '.' pkg svc hd]
  · simp only [parse_method_name, pySplit_two_slashes _ _ hs hm,
      pyRsplit1_no_sep '.' svc hd]
  · intro h
    simp [MethodName.fully_qualified_service, h]
  · simp [MethodName.fully_qualified_service]

/-- Witness for C3 at the documented example path
`/foo.bar.SearchService/Search` and at `/SearchService/Search`. -/
theorem parse_method_name_components_witness :
    (parse_method_name
        ('/' :: ("foo.bar".data ++ '.' :: "SearchService".data)
          ++ '/' :: "Search".data)
        = some ⟨"foo.bar".data, "SearchService".data, "Search".data⟩) ∧
    (parse_method_name ('/' :: "SearchService".data ++ '/' :: "Search".data)
        = some ⟨[], "SearchService".data, "Search".data⟩) ∧
    ((MethodName.mk "foo.bar".data "SearchService".data "Search".data).fully_qualified_service
        = "foo.bar".data ++ '.' :: "SearchService".data) ∧
    ((MethodName.mk [] "SearchService".data "Search".data).fully_qualified_service
        = "SearchService".data) := by
  have h := parse_method_name_components "foo.bar".data "SearchService".data
    "Search".data (by decide) (by decide) (by decide) (by decide)
  exact ⟨h.1, h.2.1, h.2.2.1 (by decide), h.2.2.2⟩

/-- C4: constructing a `GrpcException` (any subclass: the class defaults
are arbitrary) with `status_code` OK, and constructing either
exception-to-status interceptor with `status_on_unknown_exception` OK,
raise `ValueError` at construction time; every non-OK or omitted status
code constructs successfully. -/
theorem ok_status_rejected_at_construction :
    (∀ (cc : StatusCode) (cd : String) (d : Option String),
       GrpcException.init cc cd d (some .OK) = .error .valueError) ∧
    (∀ (cc : StatusCode) (cd : String) (d : Option String) (c : StatusCode),
       c ≠ .OK → GrpcException.init cc cd d (some c) = .ok ⟨c, d.getD cd⟩) ∧
    (∀ (cc : StatusCode) (cd : String) (d : Option String),
       GrpcException.init cc cd d none = .ok ⟨cc, d.getD cd⟩) ∧
    (ExceptionToStatusInterceptor.init (some .OK) = .error .valueError) ∧
    (∀ c : StatusCode, c ≠ .OK →
       ExceptionToStatusInterceptor.init (some c) = .ok (some c)) ∧
    (ExceptionToStatusInterceptor.init none = .ok none) ∧
    (AsyncExceptionToStatusInterceptor.init (some .OK) = .error .valueError) ∧
    (∀ c : StatusCode, c ≠ .OK →
       AsyncExceptionToStatusInterceptor.init (some c) = .ok (some c)) ∧
    (AsyncExceptionToStatusInterceptor.init none = .ok none) := by
  refine ⟨?_, ?_, ?_, ?_, ?_, ?_, ?_, ?_, ?_⟩
  · intro cc cd d; simp [GrpcException.init]
  · intro cc cd d c h; simp [GrpcException.init, h]
  · intro cc cd d; simp [GrpcException.init]
  · simp [ExceptionToStatusInterceptor.init]
  · intro c h; simp [ExceptionToStatusInterceptor.init, h]
  · simp [ExceptionToStatusInterceptor.init]
  · simp [AsyncExceptionToStatusInterceptor.init]
  · intro c h; simp [AsyncExceptionToStatusInterceptor.init, h]
  · simp [AsyncExceptionToStatusInterceptor.init]

/-- Witness for C4: successful construction at the non-OK status code
`NOT_FOUND` and `INTERNAL`. -/
theorem ok_status_rejected_at_construction_witness :
    (GrpcException.init .UNKNOWN "Unknown exception occurred" none (some .NOT_FOUND)
        = .ok ⟨.NOT_FOUND, "Unknown exception occurred"⟩) ∧
    (ExceptionToStatusInterceptor.init (some .INTERNAL) = .ok (some .INTERNAL)) ∧
    (AsyncExceptionToStatusInterceptor.init (some .INTERNAL) = .ok (some .INTERNAL)) :=
  ⟨ok_status_rejected_at_construction.2.1 _ _ _ _ (by decide),
   ok_status_rejected_at_construction.2.2.2.2.1 _ (by decide),
   ok_status_rejected_at_construction.2.2.2.2.2.2.2.1 _ (by decide)⟩

/-- C8: every `StatusCode` except OK has exactly one concrete
`GrpcException` subclass whose class-level default status code is that
code, and the default details strings of the concrete subclasses are
pairwise distinct. -/
theorem taxonomy_covers_every_nonok_code_uniquely :
    (∀ c : StatusCode, c ≠ .OK →
       ∃ k : GrpcExceptionKind, k.defaultStatusCode = c ∧
         ∀ k2 : GrpcExceptionKind, k2.defaultStatusCode = c → k2 = k) ∧
    (∀ k1 k2 : GrpcExceptionKind,
       k1.defaultDetails = k2.defaultDetails → k1 = k2) :=
  ⟨by decide, by decide⟩

/-- Witness for C8 at the concrete code `CANCELLED` and the concrete kind
pair `(Aborted, Aborted)`. -/
theorem taxonomy_covers_every_nonok_code_uniquely_witness :
    (∃ k : GrpcExceptionKind, k.defaultStatusCode = .CANCELLED ∧
       ∀ k2 : GrpcExceptionKind, k2.defaultStatusCode = .CANCELLED → k2 = k) ∧
    GrpcExceptionKind.Aborted = GrpcExceptionKind.Aborted :=
  ⟨taxonomy_covers_every_nonok_code_uniquely.1 .CANCELLED (by decide),
   taxonomy_covers_every_nonok_code_uniquely.2 .Aborted .Aborted rfl⟩

/-- C5: for streaming-response calls adapted by
`AsyncServerInterceptor.intercept_service`, the adapted entry point yields
exactly the items of the underlying asynchronous sequence — whether the
user `intercept` invocation produced an async generator directly, or a
coroutine awaiting to an async iterable, or a coroutine awaiting to `None`
(yield nothing) — and the detection is structural: the result does not
depend on the Python type name of the async-iterable object. -/
theorem async_streaming_adapts_uniformly
    (Ctx Req σ Ser : Type) (nameA nameB : String) (items : List σ)
    (intercept : (Req → Ctx → AsyncVal σ) → Req → Ctx → String → AsyncVal σ)
    (continuation : HandlerCallDetails → Option (AsyncRpcMethodHandler Ctx Req σ Ser))
    (hcd : HandlerCallDetails) (h : AsyncRpcMethodHandler Ctx Req σ Ser) :
    (invoke_intercept_method_streaming (.agen ⟨nameA, items⟩) = .ok items) ∧
    (invoke_intercept_method_streaming (.coro (.aiterable ⟨nameA, items⟩))
        = .ok items) ∧
    (invoke_intercept_method_streaming (.coro (.pyNone : AwaitedVal σ))
        = .ok ([] : List σ)) ∧
    (invoke_intercept_method_streaming (.agen ⟨nameA, items⟩)
        = invoke_intercept_method_streaming (.agen ⟨nameB, items⟩)) ∧
    (invoke_intercept_method_streaming (.coro (.aiterable ⟨nameA, items⟩))
        = invoke_intercept_method_streaming (.coro (.aiterable ⟨nameB, items⟩))) ∧
    (continuation hcd = some h → h.response_streaming = true →
       ∃ ah, AsyncServerInterceptor.intercept_service intercept continuation hcd
           = some ah ∧
         ∀ (req : Req) (ctx : Ctx), ah.behavior req ctx
           = .streamed (invoke_intercept_method_streaming
               (intercept h.behavior req ctx hcd.method))) := by
  refine ⟨rfl, rfl, rfl, rfl, rfl, ?_⟩
  intro h1 h2
  simp only [AsyncServerInterceptor.intercept_service, h1, h2, if_true]
  exact ⟨_, rfl, fun req ctx => rfl⟩

/-- Witness for C5: a concrete streaming handler whose `intercept` result
is an async generator yielding `[1, 2]`. -/
theorem async_streaming_adapts_uniformly_witness :
    ∃ ah, AsyncServerInterceptor.intercept_service
        (fun (m : Nat → Nat → AsyncVal Nat) (r c : Nat) (_ : String) => m r c)
        (fun _ => some ⟨true, fun _ _ => .agen ⟨"async_generator", [1, 2]⟩, 0, 0⟩)
        ⟨"/foo.Service/Method"⟩
        = some ah ∧
      ∀ (req ctx : Nat), ah.behavior req ctx
        = .streamed (invoke_intercept_method_streaming
            ((fun (m : Nat → Nat → AsyncVal Nat) (r c : Nat) (_ : String) => m r c)
              (fun _ _ => .agen ⟨"async_generator", [1, 2]⟩) req ctx
              "/foo.Service/Method")) :=
  (async_streaming_adapts_uniformly Nat Nat Nat Nat "async_generator"
    "async_generator" [1, 2]
    (fun m r c _ => m r c)
    (fun _ => some ⟨true, fun _ _ => .agen ⟨"async_generator", [1, 2]⟩, 0, 0⟩)
    ⟨"/foo.Service/Method"⟩
    ⟨true, fun _ _ => .agen ⟨"async_generator", [1, 2]⟩, 0, 0⟩).2.2.2.2.2 rfl rfl

/-- C6 failing-input evaluation: with a pass-through `intercept` and a
continuation returning the request content it was handed, a
stream-request call whose request iterator yields the messages `1, 2`
shows that `intercept` (and then the continuation) received
`iter((request_iterator,))` — an iterator over the iterator — rather than
the iterator of the RPC request messages, for both stream-request
shapes. -/
theorem stream_request_iterator_is_wrapped :
    (ClientInterceptor.intercept_stream_unary
        (fun (d : Nat) (r : PyVal Nat) (_ _ : Bool) =>
          (d, r, (none : Option (PyVal Nat → PyVal Nat))))
        (fun _ r => r) 0 (.iterObj [.msg 1, .msg 2])
      = .iterObj [.iterObj [.msg 1, .msg 2]]) ∧
    (ClientInterceptor.intercept_stream_stream
        (fun (d : Nat) (r : PyVal Nat) (_ _ : Bool) =>
          (d, r, (none : Option (PyVal Nat → PyVal Nat))))
        (fun _ r => r) 0 (.iterObj [.msg 1, .msg 2])
      = .iterObj [.iterObj [.msg 1, .msg 2]]) ∧
    (PyVal.iterObj [PyVal.iterObj [PyVal.msg (1 : Nat), PyVal.msg 2]]
      ≠ PyVal.iterObj [PyVal.msg 1, PyVal.msg 2]) := by
  refine ⟨rfl, rfl, ?_⟩
  simp

/-- C7: when the continuation reports that the method is not implemented
(`None`), both `ServerInterceptor.intercept_service` and
`AsyncServerInterceptor.intercept_service` return `None` without building
a handler, and the result does not depend on the user `intercept` at all
(the interceptor is never invoked, so its observable call count stays
zero). -/
theorem unimplemented_method_bypasses_interceptor
    (Ctx Req Resp σ Ser : Type)
    (intercept intercept2 : (Req → Ctx → Resp) → Req → Ctx → String → Resp)
    (aintercept aintercept2 :
      (Req → Ctx → AsyncVal σ) → Req → Ctx → String → AsyncVal σ)
    (continuation : HandlerCallDetails → Option (RpcMethodHandler Ctx Req Resp Ser))
    (acontinuation :
      HandlerCallDetails → Option (AsyncRpcMethodHandler Ctx Req σ Ser))
    (hcd : HandlerCallDetails)
    (hnone : continuation hcd = none) (hanone : acontinuation hcd = none) :
    (ServerInterceptor.intercept_service intercept continuation hcd = none) ∧
    (AsyncServerInterceptor.intercept_service aintercept acontinuation hcd
        = none) ∧
    (ServerInterceptor.intercept_service intercept continuation hcd
        = ServerInterceptor.intercept_service intercept2 continuation hcd) ∧
    (AsyncServerInterceptor.intercept_service aintercept acontinuation hcd
        = AsyncServerInterceptor.intercept_service aintercept2 acontinuation hcd) := by
  refine ⟨?_, ?_, ?_, ?_⟩ <;>
    simp [ServerInterceptor.intercept_service,
      AsyncServerInterceptor.intercept_service, hnone, hanone]

/-- Witness for C7 with a continuation that knows no method. -/
theorem unimplemented_method_bypasses_interceptor_witness :
    (ServerInterceptor.intercept_service
        (fun (m : Nat → Nat → Nat) (r c : Nat) (_ : String) => m r c)
        (fun _ => (none : Option (RpcMethodHandler Nat Nat Nat Nat)))
        ⟨"/DummyService/Unimplemented"⟩ = none) ∧
    (AsyncServerInterceptor.intercept_service
        (fun (m : Nat → Nat → AsyncVal Nat) (r c : Nat) (_ : String) => m r c)
        (fun _ => (none : Option (AsyncRpcMethodHandler Nat Nat Nat Nat)))
        ⟨"/DummyService/Unimplemented"⟩ = none) := by
  have h := unimplemented_method_bypasses_interceptor Nat Nat Nat Nat Nat
    (fun m r c _ => m r c) (fun m r c _ => m r c)
    (fun m r c _ => m r c) (fun m r c _ => m r c)
    (fun _ => none) (fun _ => none)
    ⟨"/DummyService/Unimplemented"⟩ rfl rfl
  exact ⟨h.1, h.2.1⟩

/-- C9 counterexample: at the concrete path
`/pkg.sub.Service/Method/extra`, whose method segment contains an extra
slash, `parse_method_name` does not succeed with the method equal to
everything after the second slash — it fails (the triple unpacking of
`split("/")` raises `ValueError`), because the code splits at every
slash, not only at the first two. -/
theorem parse_rejects_extra_slash_counterexample :
    (parse_method_name ("/pkg.sub.Service/Method/extra".data) = none) ∧
    (parse_method_name ("/pkg.sub.Service/Method/extra".data)
      ≠ some ⟨"pkg.sub".data, "Service".data, "Method/extra".data⟩) := by
  exact ⟨by decide, by decide⟩

/-- C9 amended: `parse_method_name` splits at every `/`, requiring exactly
two slash boundaries: a path whose method segment contains a further `/`
fails to parse, and on two-slash paths the middle segment is split only on
its last dot (the package may itself contain dots). -/
theorem parse_splits_all_slashes_and_last_dot
    (mid m1 m2 pkg svc : List Char)
    (h0 : '/' ∉ mid) (h1 : '/' ∉ m1) (h2 : '/' ∉ m2)
    (hp : '/' ∉ pkg) (hs : '/' ∉ svc) (hd : '.' ∉ svc) :
    (parse_method_name ('/' :: mid ++ '/' :: (m1 ++ '/' :: m2)) = none) ∧
    (parse_method_name ('/' :: (pkg ++ '.' :: svc) ++ '/' :: m1)
        = some ⟨pkg, svc, m1⟩) := by
  constructor
  · have hsplit : pySplit '/' ('/' :: mid ++ '/' :: (m1 ++ '/' :: m2))
        = [[], mid, m1, m2] := by
      show pySplitAux '/' ([] ++ '/' :: (mid ++ '/' :: (m1 ++ '/' :: m2))) []
        = [[], mid, m1, m2]
      rw [pySplitAux_append_sep _ _ _ _ (by simp),
        pySplitAux_append_sep _ _ _ _ h0,
        pySplitAux_append_sep _ _ _ _ h1,
        pySplitAux_no_sep _ _ _ h2]
      simp
    unfold parse_method_name
    rw [hsplit]
  · have hmid : '/' ∉ (pkg ++ '.' :: svc) := by
      intro h
      rcases List.mem_append.mp h with ha | ha
      · exact hp ha
      · rcases List.mem_cons.mp ha with hb | hb
        · exact absurd hb (by decide)
        · exact hs hb
    simp only [parse_method_name, pySplit_two_slashes _ _ hmid h1,
      pyRsplit1_last_sep '.' pkg svc hd]

/-- Witness for the amended C9 at concrete paths `/pkg.sub.Service/Method/extra`
(failing) and `/pkg.sub.Service/Method` (middle split on its last dot). -/
theorem parse_splits_all_slashes_and_last_dot_witness :
    (parse_method_name
        ('/' :: "pkg.sub.Service".data
          ++ '/' :: ("Method".data ++ '/' :: "extra".data)) = none) ∧
    (parse_method_name
        ('/' :: ("pkg.sub".data ++ '.' :: "Service".data) ++ '/' :: "Method".data)
        = some ⟨"pkg.sub".data, "Service".data, "Method".data⟩) :=
  parse_splits_all_slashes_and_last_dot "pkg.sub.Service".data "Method".data
    "extra".data "pkg.sub".data "Service".data
    (by decide) (by decide) (by decide) (by decide) (by decide) (by decide)

/-- C10: the unary-request client adapters hand `intercept` the iterator
`iter((request,))` over exactly the one message and extract the message to
send with exactly one `next()` on the iterator `intercept` returns: a
pass-through `intercept` round-trips the request to the continuation, an
exhausted returned iterator raises `StopIteration` before the continuation
is ever invoked (for every continuation), and when the returned iterator
is non-empty only its first element reaches the continuation — the
outcome is independent of the remaining elements, which are never
consumed. -/
theorem unary_request_extracted_once
    (δ α ρ : Type)
    (f : δ → PyVal α → Bool → Bool → δ × PyVal α × Option (ρ → ρ))
    (k : δ → PyVal α → ρ) (d : δ) (req : PyVal α)
    (nd : δ) (post : Option (ρ → ρ)) (x : PyVal α) (rest : List (PyVal α)) :
    (ClientInterceptor.intercept_unary_unary
        (fun d r _ _ => (d, r, none)) k d req = .ok (k d req)) ∧
    (ClientInterceptor.intercept_unary_stream
        (fun d r _ _ => (d, r, none)) k d req = .ok (k d req)) ∧
    (f d (.iterObj [req]) false false = (nd, .iterObj [], post) →
       ClientInterceptor.intercept_unary_unary f k d req
         = .error .stopIteration) ∧
    (f d (.iterObj [req]) false false = (nd, .iterObj (x :: rest), post) →
       ClientInterceptor.intercept_unary_unary f k d req
         = .ok (applyPostprocess post (k nd x))) ∧
    (f d (.iterObj [req]) false true = (nd, .iterObj [], post) →
       ClientInterceptor.intercept_unary_stream f k d req
         = .error .stopIteration) ∧
    (f d (.iterObj [req]) false true = (nd, .iterObj (x :: rest), post) →
       ClientInterceptor.intercept_unary_stream f k d req
         = .ok (applyPostprocess post (k nd x))) := by
  refine ⟨rfl, rfl, ?_, ?_, ?_, ?_⟩ <;>
    · intro h
      simp [ClientInterceptor.intercept_unary_unary,
        ClientInterceptor.intercept_unary_stream, h]

/-- Witness for C10: a pass-through round trip, and an `intercept`
returning an exhausted iterator, which raises `StopIteration` before the
continuation runs. -/
theorem unary_request_extracted_once_witness :
    (ClientInterceptor.intercept_unary_unary
        (fun (d : Nat) (r : PyVal Nat) (_ _ : Bool) =>
          (d, r, (none : Option (PyVal Nat → PyVal Nat))))
        (fun _ r => r) 0 (.msg 5) = .ok (.msg 5)) ∧
    (ClientInterceptor.intercept_unary_unary
        (fun (d : Nat) (_ : PyVal Nat) (_ _ : Bool) =>
          (d, PyVal.iterObj [], (none : Option (PyVal Nat → PyVal Nat))))
        (fun _ r => r) 0 (.msg 5) = .error .stopIteration) := by
  have h := unary_request_extracted_once Nat Nat (PyVal Nat)
    (fun d _ _ _ => (d, PyVal.iterObj [], none))
    (fun _ r => r) 0 (.msg 5) 0 none (.msg 5) []
  exact ⟨h.1, h.2.2.1 rfl⟩

end GrpcInterceptor
